import Mathlib

/-!
# Verification of the DD-Target-Scraper incremental synchronization engine

This file gives a shallow embedding, in Lean 4, of the sync/diff/write/log
core of the scraper (`src/core_scraper.py`, `src/sheets_manager.py`) and
proves or refutes the frozen specification claims about it.

Modelling conventions:
* Python strings are Lean `String`s; `str.strip` / `str.lower` are embedded
  as `pyStrip` / `pyLower` (ASCII semantics, which covers every string the
  program manipulates in the relevant code paths).
* Python dicts keyed by strings are association lists (`List (String × α)`)
  with insert-or-overwrite assignment (`aset`) mirroring dict assignment
  (existing key keeps its position, new key appended — CPython ≥ 3.7
  insertion order).
* The Google-Sheets worksheet behind the "Profiles" tab is a
  `List (List String)` of rows; `append_row` appends, range updates replace
  a row, single-cell updates replace a cell.  Row numbers are 1-based as in
  the A1 notation used by the source.
* Remote writes are modelled as always succeeding inside `write_profile`
  (the retry wrapper `safe_update` is analysed separately, over an explicit
  per-attempt outcome trace); wall-clock timestamps and the JSON
  serialisation/truncation applied by `log_change` are abstracted away: a
  log row is kept as its semantic payload
  `(nickname, change_type, changed_fields, before, after)`.
* `setup` either obtains or creates the Logs worksheet before returning
  `True`, so in every reachable post-setup state the guard
  `if not self.log_sheet: return` of `log_change` is not taken; it is
  therefore not modelled.
-/

namespace DD

/-- ASCII lower-casing of one character, as Python `str.lower` does for the
ASCII range. -/
def pyLowerChar (c : Char) : Char :=
  if 'A' ≤ c ∧ c ≤ 'Z' then Char.ofNat (c.toNat + 32) else c

/-- Python `str.lower` (ASCII fragment). -/
def pyLower (s : String) : String := String.mk (s.toList.map pyLowerChar)

/-- The characters Python `str.strip()` removes by default. -/
def isPyWs (c : Char) : Bool :=
  c = ' ' ∨ c = '\t' ∨ c = '\n' ∨ c = '\r' ∨ c = '\x0b' ∨ c = '\x0c'

/-- Python `str.strip()` with no argument. -/
def pyStrip (s : String) : String :=
  String.mk (((s.toList.dropWhile isPyWs).reverse.dropWhile isPyWs).reverse)

/-- Python `a or b` on strings: `b` when `a` is empty (falsy), else `a`. -/
def py_or (a b : String) : String := if a = "" then b else a

/-- Does `pat` occur (as a contiguous block) somewhere in `l`? -/
def containsSubAux (pat : List Char) : List Char → Bool
  | [] => pat.isPrefixOf []
  | c :: rest => pat.isPrefixOf (c :: rest) || containsSubAux pat rest

/-- Python substring test `pat in s`. -/
def containsSub (s pat : String) : Bool := containsSubAux pat.toList s.toList

/-- Dict lookup `d.get(k)` (first — and only, keys being unique — match). -/
def aget {α : Type} (d : List (String × α)) (k : String) : Option α :=
  (d.find? (fun p => p.1 == k)).map (·.2)

/-- Dict assignment `d[k] = v`: overwrite in place if the key exists
(keeping its position), append otherwise.  A Python dict never holds a
duplicate key, so replacing the first occurrence models assignment exactly
on every state the program can build. -/
def aset {α : Type} (d : List (String × α)) (k : String) (v : α) :
    List (String × α) :=
  match d with
  | [] => [(k, v)]
  | p :: t => if p.1 == k then (p.1, v) :: t else p :: aset t k v

/-- Dict lookup with `""` default, `d.get(k, "")`, for string-valued dicts
(the scraped record and the tags mapping). -/
def rget (d : List (String × String)) (k : String) : String :=
  (aget d k).getD ""

/-- `COLUMN_ORDER` from `core_scraper.py`. -/
def COLUMN_ORDER : List String :=
  ["IMAGE", "NICK NAME", "TAGS", "LAST POST", "LAST POST TIME", "FRIEND",
   "CITY", "GENDER", "MARRIED", "AGE", "JOINED", "FOLLOWERS", "STATUS",
   "POSTS", "PROFILE LINK", "INTRO", "SOURCE", "DATETIME SCRAP"]

/-- `COLUMN_TO_INDEX` from `core_scraper.py`: position of a column name in
`COLUMN_ORDER` (the names are distinct, so first index = dict value). -/
def COLUMN_TO_INDEX (name : String) : Nat :=
  COLUMN_ORDER.findIdx (fun c => c == name)

/-- `LINK_COLUMNS` from `core_scraper.py` (a Python `set`; iteration order
does not affect the final state because the three columns address three
distinct cells, so a fixed list is a faithful model). -/
def LINK_COLUMNS : List String := ["IMAGE", "LAST POST", "PROFILE LINK"]

/-- The sentinel phrases `clean_data` blanks out. -/
def replace_with_blank : List String :=
  ["No city", "Not set", "[No Posts]", "N/A",
   "no city", "not set", "[no posts]", "n/a",
   "[No Post URL]", "[Error]", "no set", "none", "null", "no age"]

/-- `clean_data` from `core_scraper.py`: empty stays empty, otherwise strip
and blank out the known "no value" sentinels. -/
def clean_data (value : String) : String :=
  if value = "" then ""
  else
    let v := pyStrip value
    if replace_with_blank.contains v then "" else v

/-! ## Sheets manager state (`sheets_manager.py`) -/

/-- A scraped record / dict payload: field name ↦ value. -/
abbrev Rec := List (String × String)

/-- One worksheet: a list of rows (row 1 of A1 notation is index 0). -/
abbrev Sheet := List (List String)

/-- Replace the row at 1-based row number `row` (gspread range update of a
full row, as issued by `write_profile`). -/
def sheetUpdateRow (s : Sheet) (row : Nat) (vals : List String) : Sheet :=
  s.set (row - 1) vals

/-- Replace the single cell at 1-based row `row`, 0-based column `col`
(gspread single-cell update, as issued by `apply_link_formulas`). -/
def sheetSetCell (s : Sheet) (row : Nat) (col : Nat) (v : String) : Sheet :=
  match s.get? (row - 1) with
  | none => s
  | some r => s.set (row - 1) (r.set col v)

/-- One appended row of the `Logs` worksheet, kept as its semantic payload
(`log_change` additionally stamps the wall-clock time and JSON-serialises
`before`/`after` truncated to 500 characters; none of the claims touch
that presentation layer, so it is abstracted away). -/
structure LogEntry where
  nickname : String
  change_type : String
  changed_fields : List String
  before : Option Rec
  after : Rec
deriving DecidableEq

/-- The mutable state of a `SheetsManager` after `setup`, restricted to the
fields the sync engine reads or writes: the identity index
`existing_profiles` (lower-cased nickname ↦ (1-based row number, stored row
values)), the `tags_mapping`, the `Profiles` worksheet contents, and the
rows appended to the `Logs` worksheet. -/
structure MState where
  existing_profiles : List (String × (Nat × List String))
  tags_mapping : List (String × String)
  profiles_rows : Sheet
  log_rows : List LogEntry
deriving DecidableEq

/-- `SheetsManager.get_tags_for_nickname`. -/
def get_tags_for_nickname (tags_mapping : List (String × String))
    (nickname : String) : String :=
  (aget tags_mapping (pyLower nickname)).getD ""

/-- The cell value `write_profile` derives for column `col` of the (already
tag-patched) record `data`: `IMAGE` is left blank for the formula pass,
the two link columns become presence markers, everything else goes through
`clean_data`. -/
def cell_value (data : Rec) (col : String) : String :=
  if col = "IMAGE" then ""
  else if col = "PROFILE LINK" then (if rget data col ≠ "" then "Profile" else "")
  else if col = "LAST POST" then (if rget data col ≠ "" then "Post" else "")
  else clean_data (rget data col)

/-- The full `row_values` tuple `write_profile` builds from a record. -/
def row_values_of (data : Rec) : List String := COLUMN_ORDER.map (cell_value data)

/-- The formula text `apply_link_formulas` writes for a link column. -/
def link_formula (col_name : String) (value : String) : String :=
  if col_name = "IMAGE" then "=IMAGE(\"" ++ value ++ "\", 4, 50, 50)"
  else if col_name = "LAST POST" then "=HYPERLINK(\"" ++ value ++ "\", \"Post\")"
  else "=HYPERLINK(\"" ++ value ++ "\", \"Profile\")"

/-- `SheetsManager.apply_link_formulas`: for each link column whose raw
value in `data` is non-empty (truthy), overwrite that column's cell of row
`row_idx` with the formula. -/
def apply_link_formulas (sheet : Sheet) (row_idx : Nat) (data : Rec) : Sheet :=
  LINK_COLUMNS.foldl
    (fun sh col =>
      let value := rget data col
      if value = "" then sh
      else sheetSetCell sh row_idx (COLUMN_TO_INDEX col) (link_formula col value))
    sheet

/-- Spec-level rendering of "the persisted row holds record `data`": the
row a reader of the Profiles table sees once `write_profile` has written
`data`'s derived values and the formula pass has run — each link column
whose raw value is non-empty shows its formula, every other column shows
the derived cell value. -/
def row_as_persisted (data : Rec) : List String :=
  COLUMN_ORDER.map (fun col =>
    if LINK_COLUMNS.contains col ∧ rget data col ≠ "" then
      link_formula col (rget data col)
    else cell_value data col)

/-- The `before_snapshot` dict comprehension of `write_profile`:
`{COLUMN_ORDER[idx]: existing_data[idx] or "" padded for idx in range(18)}`. -/
def mk_before (edata : List String) : Rec :=
  (List.range COLUMN_ORDER.length).map
    (fun idx => (COLUMN_ORDER.getD idx "", edata.getD idx ""))

/-- The `changed_indices` loop of `write_profile`: indices (in declared
order) whose stored value — looked up in `before_snapshot` by column name,
with Python's `or ""` nullish-coalescing on both sides — differs from the
freshly derived value. -/
def changed_indices_of (edata : List String) (row_values : List String) :
    List Nat :=
  (List.range COLUMN_ORDER.length).filter
    (fun idx =>
      let col := COLUMN_ORDER.getD idx ""
      !(py_or (rget (mk_before edata) col) "" == py_or (row_values.getD idx "") ""))

/-- Outcome tag of `write_profile`'s returned status dict. -/
inductive WStatus
  | new | updated | unchanged | error
deriving DecidableEq

/-- The dict `write_profile` returns: status, `changed_fields`, and the
`error` message (present only on the error status, modelled as `""`
otherwise). -/
structure WResult where
  status : WStatus
  changed_fields : List String
  error : String
deriving DecidableEq

/-- Full effect of one `write_profile` call: the new manager state, the
caller's record after the in-place `data['TAGS'] = …` mutation, and the
returned result dict. -/
structure WPOut where
  st : MState
  data : Rec
  res : WResult
deriving DecidableEq

/-- `SheetsManager.write_profile` (`sheets_manager.py:309-386`), with the
remote writes taken as succeeding (`safe_update`'s retry behaviour is
modelled separately below). -/
def write_profile (st : MState) (data0 : Rec) : WPOut :=
  let nickname := pyStrip (rget data0 "NICK NAME")
  if nickname = "" then
    ⟨st, data0, ⟨.error, [], "Missing nickname"⟩⟩
  else
    let data := aset data0 "TAGS" (get_tags_for_nickname st.tags_mapping nickname)
    let row_values := row_values_of data
    let nickname_lower := pyLower nickname
    match aget st.existing_profiles nickname_lower with
    | some (row_num, edata) =>
      let before_snapshot := mk_before edata
      let changed_indices := changed_indices_of edata row_values
      if changed_indices = [] then
        ⟨{ st with log_rows :=
             st.log_rows ++ [⟨nickname, "UNCHANGED", [], some before_snapshot, data⟩] },
         data, ⟨.unchanged, [], ""⟩⟩
      else
        let sheet1 := sheetUpdateRow st.profiles_rows row_num row_values
        let sheet2 := apply_link_formulas sheet1 row_num data
        let changed_fields := changed_indices.map (fun i => COLUMN_ORDER.getD i "")
        ⟨{ st with
             profiles_rows := sheet2,
             log_rows := st.log_rows ++
               [⟨nickname, "UPDATED", changed_fields, some before_snapshot, data⟩],
             existing_profiles :=
               aset st.existing_profiles nickname_lower (row_num, row_values) },
         data, ⟨.updated, changed_fields, ""⟩⟩
    | none =>
      let sheet1 := st.profiles_rows ++ [row_values]
      let new_row := sheet1.length
      let sheet2 := apply_link_formulas sheet1 new_row data
      ⟨{ st with
           profiles_rows := sheet2,
           existing_profiles :=
             aset st.existing_profiles nickname_lower (new_row, row_values),
           log_rows := st.log_rows ++
             [⟨nickname, "NEW", COLUMN_ORDER, none, data⟩] },
       data, ⟨.new, COLUMN_ORDER, ""⟩⟩

/-- The stripped identity field of a record, as `write_profile` computes it. -/
abbrev nick_of (d : Rec) : String := pyStrip (rget d "NICK NAME")

/-- The record after `write_profile`'s in-place `data['TAGS'] = …` patch. -/
abbrev tagged (tags_mapping : List (String × String)) (d : Rec) : Rec :=
  aset d "TAGS" (get_tags_for_nickname tags_mapping (nick_of d))

/-! ## Snapshot loading and setup (`SheetsManager.setup`,
`load_existing_profiles`, `load_tags_mapping`) -/

/-- The index-building loop of `load_existing_profiles`: over the rows
below the header, keep each row with at least two cells whose stripped,
lower-cased `NICK NAME` cell (column 1) is non-empty, mapping that
identity to its 1-based sheet row number (enumeration starts at 2) and
the full raw row; a later duplicate overwrites an earlier one. -/
def build_profiles_index (rows : List (List String)) :
    List (String × (Nat × List String)) :=
  rows.enum.foldl
    (fun acc p =>
      if p.2 ≠ [] ∧ p.2.length > 1 then
        let nickname := pyLower (pyStrip (p.2.getD 1 ""))
        if nickname ≠ "" then aset acc nickname (p.1 + 2, p.2) else acc
      else acc)
    []

/-- `SheetsManager.load_existing_profiles` (`sheets_manager.py:129-141`).
`fetch` is the outcome of the remote `get_all_values()` read.  The body
resets `existing_profiles` to `{}` *before* the read, and its
`try/except` swallows a failed read (logging a warning and returning
normally), so a failure leaves the index empty rather than aborting. -/
def load_existing_profiles (fetch : Except String (List (List String)))
    (st : MState) : MState :=
  match fetch with
  | .error _ => { st with existing_profiles := [] }
  | .ok allValues =>
    { st with existing_profiles := build_profiles_index (allValues.drop 1) }

/-- The accumulation loop of `load_tags_mapping`: for each header cell
with a non-blank tag name, walk that column below the header and attach
the tag to every non-empty nickname, comma-appending when the nickname
already carries tags. -/
def build_tags_mapping (init : List (String × String))
    (all_data : List (List String)) : List (String × String) :=
  if all_data = [] ∨ all_data.length < 2 then init
  else
    (all_data.headD []).enum.foldl
      (fun acc p =>
        if p.2 = "" ∨ pyStrip p.2 = "" then acc
        else
          let tag := pyStrip p.2
          (all_data.drop 1).foldl
            (fun acc2 row =>
              if p.1 < row.length then
                let nickname := pyStrip (row.getD p.1 "")
                if nickname ≠ "" then
                  let nl := pyLower nickname
                  match aget acc2 nl with
                  | some prev => aset acc2 nl (prev ++ ", " ++ tag)
                  | none => aset acc2 nl tag
                else acc2
              else acc2)
            acc)
      init

/-- `SheetsManager.load_tags_mapping` (`sheets_manager.py:96-123`): its
`try/except` also swallows a failed read, leaving the mapping as it was. -/
def load_tags_mapping (fetch : Except String (List (List String)))
    (st : MState) : MState :=
  match fetch with
  | .error _ => st
  | .ok all_data =>
    { st with tags_mapping := build_tags_mapping st.tags_mapping all_data }

/-- Outcomes of the remote operations `setup` performs.  `fatal` abstracts
an exception raised by any operation *outside* the two swallowing loaders
(`open_by_url`, worksheet get-or-create, header initialisation, Logs /
Dashboard sheet creation): such an exception reaches `setup`'s own
`except`, which prints and returns `False`.  `tags_sheet_exists`
distinguishes the `WorksheetNotFound` case in which `load_tags_mapping`
is never called; the two fetches feed the loaders. -/
structure Remote where
  fatal : Bool
  tags_sheet_exists : Bool
  tags_fetch : Except String (List (List String))
  profiles_fetch : Except String (List (List String))

/-- `SheetsManager.setup` (`sheets_manager.py:22-69`): returns whether the
run may proceed (the callers `sys.exit(1)` on `False`) together with the
manager state after the loaders ran.  `format_profiles_sheet` catches its
own exceptions and touches no modelled state, so it contributes nothing
here. -/
def setup (rm : Remote) (st : MState) : Bool × MState :=
  if rm.fatal then (false, st)
  else
    let st1 := if rm.tags_sheet_exists then load_tags_mapping rm.tags_fetch st else st
    (true, load_existing_profiles rm.profiles_fetch st1)

/-! ## Rate-limited write executor (`SheetsManager.safe_update`) -/

/-- Outcome of one attempt of the wrapped remote operation: success, or an
exception carrying its message text. -/
inductive ROutcome
  | ok
  | err (msg : String)
deriving DecidableEq

/-- The throttling test of `safe_update`:
`'429' in str(e) or 'quota' in str(e).lower()`. -/
def is_quota_msg (m : String) : Bool :=
  containsSub m "429" || containsSub (pyLower m) "quota"

/-- The retry loop of `SheetsManager.safe_update`
(`sheets_manager.py:206-222`), run against a trace `f` giving each
attempt's outcome; `rem` is the number of loop iterations left of the
`range(max_retries)` (3) and `attempt` the current 0-based attempt index.
Returns which attempt succeeded (`none` when the operation was given up)
together with the sequence of sleeps performed in order: the proactive
pacing delay `SHEET_WRITE_DELAY` (`delay`) after a success, the backoff
`(attempt+1)*5` seconds after a throttled failure, nothing after a
failure of any other class. -/
def safe_update_go (f : Nat → ROutcome) (delay : ℚ) :
    Nat → Nat → Option Nat × List ℚ
  | 0, _ => (none, [])
  | rem + 1, attempt =>
    match f attempt with
    | .ok => (some attempt, [delay])
    | .err m =>
      if is_quota_msg m then
        let r := safe_update_go f delay rem (attempt + 1)
        (r.1, ((attempt + 1 : ℚ) * 5) :: r.2)
      else if rem = 0 then (none, [])
      else safe_update_go f delay rem (attempt + 1)

/-- `SheetsManager.safe_update` with its default `max_retries=3`. -/
def safe_update (f : Nat → ROutcome) (delay : ℚ) : Option Nat × List ℚ :=
  safe_update_go f delay 3 0

/-- Spec-side retry policy, written from the amended claim: the first
successful attempt among the three, if any. -/
def first_ok (f : Nat → ROutcome) : Option Nat :=
  if f 0 = .ok then some 0
  else if f 1 = .ok then some 1
  else if f 2 = .ok then some 2
  else none

/-- Spec-side: how many attempts actually run — up to and including the
first success, else all three. -/
def attempts_run (f : Nat → ROutcome) : Nat :=
  match first_ok f with
  | some a => a + 1
  | none => 3

/-- Spec-side sleep schedule: one linear backoff `(i+1)*5` per throttled
failed attempt `i` that ran, no sleep for a failure of any other class,
and the fixed pacing delay after a success. -/
def backoffs (f : Nat → ROutcome) (delay : ℚ) : List ℚ :=
  ((List.range (attempts_run f)).filterMap
    (fun i =>
      match f i with
      | .ok => none
      | .err m => if is_quota_msg m then some ((i + 1 : ℚ) * 5) else none)) ++
  (if (first_ok f).isSome then [delay] else [])

/-! ## Relative-date normalizer (`convert_relative_date_to_absolute`)

The source (`core_scraper.py:133-188`) lower-cases and strips the input,
rewrites the abbreviation patterns `\bsecs?\b`, `\bmins?\b`, `\bhrs?\b`,
`\bwks?\b`, `\byrs?\b`, `\bmon(s)?\b` to the full unit names, handles the
special phrases, then searches for `\b(a|an)\s+(unit)s?\s*ago\b` and
`(\d+)\s*(unit)s?\s*ago`.  Each abbreviation pattern is a whole word
delimited by `\b` on both sides, so the `re.sub` chain rewrites exactly
the maximal word-runs equal to a stem or its plural — embedded here as a
per-token mapping over the word/non-word runs of the text.  The two `ago`
searches are embedded as leftmost-match scans; the greedy `\d+`, `\s+`,
`\s*` and `s?` pieces never need backtracking because what must follow
them (a unit name or `ago`) can never start with a digit, whitespace or
`s` respectively. -/

/-- Python's regex `\w` (ASCII fragment): letters, digits, underscore. -/
def isWordChar (c : Char) : Bool := c.isAlphanum || c = '_'

/-- Collect maximal runs of characters of equal `\w`-ness (accumulator
`cur` holds the current run reversed). -/
def splitRunsGo (cur : List Char) (curWord : Bool) : List Char → List (List Char)
  | [] => [cur.reverse]
  | c :: cs =>
    if isWordChar c == curWord then splitRunsGo (c :: cur) curWord cs
    else cur.reverse :: splitRunsGo [c] (isWordChar c) cs

/-- Split a text into its maximal word / non-word runs. -/
def splitRuns : List Char → List (List Char)
  | [] => []
  | c :: cs => splitRunsGo [c] (isWordChar c) cs

/-- The abbreviation table of the source, applied to one word token; the
six substitutions run in dict order and no replacement is itself a stem or
plural of a later pattern, so a single pass per token is exact. -/
def expand_abbrev_token (w : String) : String :=
  if w = "sec" ∨ w = "secs" then "seconds"
  else if w = "min" ∨ w = "mins" then "minutes"
  else if w = "hr" ∨ w = "hrs" then "hours"
  else if w = "wk" ∨ w = "wks" then "weeks"
  else if w = "yr" ∨ w = "yrs" then "years"
  else if w = "mon" ∨ w = "mons" then "months"
  else w

/-- The `re.sub` abbreviation chain: every maximal word-run equal to a
stem (or its `s`-plural) is replaced by the full unit name. -/
def normalize_abbrevs (s : String) : String :=
  String.mk
    (((splitRuns s.toList).map
      (fun run =>
        match run with
        | [] => []
        | c :: _ =>
          if isWordChar c then (expand_abbrev_token (String.mk run)).toList
          else run)).flatten)

/-- The text after `relative_text.lower().strip()` and the abbreviation
substitutions — the value the function returns whenever nothing further is
recognized. -/
def normalize_relative (s : String) : String :=
  normalize_abbrevs (pyStrip (pyLower s))

/-- Match a literal character sequence at the head, returning the rest. -/
def dropLit : List Char → List Char → Option (List Char)
  | [], s => some s
  | _ :: _, [] => none
  | a :: p, b :: s => if a == b then dropLit p s else none

/-- Is the head (if any) a whitespace character (`\s`)? -/
def wsHead : List Char → Bool
  | c :: _ => isPyWs c
  | [] => false

/-- The unit names of both `ago` patterns, in alternation order, with the
seconds each unit stands for (`month` = 30 days, `year` = 365 days, as in
the source's `delta_map`). -/
def unitList : List (String × Nat) :=
  [("second", 1), ("minute", 60), ("hour", 3600), ("day", 86400),
   ("week", 604800), ("month", 2592000), ("year", 31536000)]

/-- First unit name matching at the head of `l` (the names share no
prefixes, so alternation order cannot matter). -/
def firstUnit : List (String × Nat) → List Char → Option (Nat × List Char)
  | [], _ => none
  | (u, sec) :: rest, l =>
    match dropLit u.toList l with
    | some r => some (sec, r)
    | none => firstUnit rest l

/-- The `s?\s*ago` tail of both patterns, with the trailing `\b` when
`needB` (pattern with `a`/`an` only). -/
def agoTail (l : List Char) (needB : Bool) : Bool :=
  let l1 := match l with
    | 's' :: r => r
    | _ => l
  let l2 := l1.dropWhile isPyWs
  match dropLit ['a', 'g', 'o'] l2 with
  | some r =>
    if needB then
      match r with
      | [] => true
      | c :: _ => !isWordChar c
    else true
  | none => false

/-- Try `\b(a|an)\s+(unit)s?\s*ago\b` anchored at this position
(`prevWord` tells whether the previous character was a word character, so
whether `\b` holds before an `a`).  Returns the unit's seconds. -/
def tryA (prevWord : Bool) (l : List Char) : Option Nat :=
  if prevWord then none
  else
    let afterAN : Option (List Char) :=
      match l with
      | 'a' :: r =>
        if wsHead r then some (r.dropWhile isPyWs)
        else
          match r with
          | 'n' :: r2 =>
            if wsHead r2 then some (r2.dropWhile isPyWs) else none
          | _ => none
      | _ => none
    match afterAN with
    | none => none
    | some l2 =>
      match firstUnit unitList l2 with
      | none => none
      | some (sec, l3) => if agoTail l3 true then some sec else none

/-- `re.search` of the `a`/`an` pattern: leftmost position where it
matches. -/
def searchA : Bool → List Char → Option Nat
  | _, [] => none
  | prevWord, c :: cs =>
    match tryA prevWord (c :: cs) with
    | some sec => some sec
    | none => searchA (isWordChar c) cs

/-- Try `(\d+)\s*(unit)s?\s*ago` anchored at this position; returns the
amount and the unit's seconds. -/
def tryN (l : List Char) : Option (Nat × Nat) :=
  match l with
  | [] => none
  | c :: _ =>
    if c.isDigit then
      let digits := l.takeWhile Char.isDigit
      let rest := l.dropWhile Char.isDigit
      let amount := digits.foldl (fun n d => n * 10 + (d.toNat - 48)) 0
      let rest2 := rest.dropWhile isPyWs
      match firstUnit unitList rest2 with
      | none => none
      | some (sec, l3) => if agoTail l3 false then some (amount, sec) else none
    else none

/-- `re.search` of the numeric pattern: leftmost position where it
matches. -/
def searchN : List Char → Option (Nat × Nat)
  | [] => none
  | c :: cs =>
    match tryN (c :: cs) with
    | some r => some r
    | none => searchN cs

/-- `convert_relative_date_to_absolute` (`core_scraper.py:133-188`).
`now` is the reference instant (seconds on the PKT clock) captured once
per call; `fmt` abstracts `datetime.strftime("%d-%b-%y")` applied to the
instant `now - delta` — no claim touches the calendar rendering itself.
The blanket `except` of the source can only fire inside the computed-date
branches (e.g. a `timedelta` overflow for an astronomical amount), where
it returns the normalized text; the embedding's unbounded integers make
that path unreachable, and no claim concerns it. -/
def convert_relative_date_to_absolute (fmt : Int → String) (now : Int)
    (relative_text : String) : String :=
  if relative_text = "" then ""
  else
    let t := normalize_relative relative_text
    if t = "just now" ∨ t = "now" then fmt now
    else if t = "yesterday" then fmt (now - 86400)
    else
      match searchA false t.toList with
      | some sec => fmt (now - (sec : Int))
      | none =>
        match searchN t.toList with
        | some (amount, sec) => fmt (now - ((amount * sec : Nat) : Int))
        | none => t

/-! ## Concrete states and records used by witnesses and counterexamples -/

/-- A freshly set-up manager with empty snapshot, tags, table and log. -/
def st0 : MState := ⟨[], [], [], []⟩

/-- A small scraped record. -/
def dBob : Rec := [("NICK NAME", "bob"), ("CITY", "Lahore")]

/-- The manager state after reconciling `dBob` once from `st0`. -/
def stBob : MState := (write_profile st0 dBob).st

/-- The row values the index stores for `dBob` after that first write. -/
def edBob : List String := row_values_of (tagged [] dBob)

/-- A manager whose Tags sheet mapped nickname `bob` to tag `VIP`. -/
def stVip : MState := ⟨[], [("bob", "VIP")], [], []⟩

/-- `dBob` with only the CITY field mutated. -/
def dBob2 : Rec := [("NICK NAME", "bob"), ("CITY", "Karachi")]

/-- A record whose only content besides the identity is an image URL. -/
def dImgA : Rec := [("NICK NAME", "bob"), ("IMAGE", "imgA")]

/-- `dImgA` with only the IMAGE field mutated. -/
def dImgB : Rec := [("NICK NAME", "bob"), ("IMAGE", "imgB")]

/-- A record carrying a profile-link URL. -/
def dLinkA : Rec := [("NICK NAME", "amy"), ("PROFILE LINK", "http://a")]

/-- `dLinkA` with only the profile-link URL mutated. -/
def dLinkB : Rec := [("NICK NAME", "amy"), ("PROFILE LINK", "http://b")]

/-- A persisted Profiles table already holding `dBob`'s row below the
header. -/
def sheetBob : Sheet := [COLUMN_ORDER, row_values_of (tagged [] dBob)]

/-- A manager about to run `setup` against that table. -/
def stSheetBob : MState := ⟨[], [], sheetBob, []⟩

/-- A healthy remote: no fatal error, no Tags sheet, Profiles read
succeeds returning `sheetBob`. -/
def rmOk : Remote := ⟨false, false, Except.ok [], Except.ok sheetBob⟩

/-- The same remote with the Profiles read failing (remote unreachable). -/
def rmErr : Remote := ⟨false, false, Except.ok [], Except.error "remote unreachable"⟩

/-! ## Helper lemmas -/

@[simp] theorem py_or_empty (a : String) : py_or a "" = a := by
  unfold py_or; split <;> simp_all

theorem aget_aset_self {α : Type} (d : List (String × α)) (k : String) (v : α) :
    aget (aset d k v) k = some v := by
  induction d with
  | nil => simp [aset, aget]
  | cons p t ih =>
    by_cases h : p.1 = k
    · simp [aset, aget, h]
    · simpa [aset, aget, h] using ih

theorem aget_aset_ne {α : Type} (d : List (String × α)) (k k' : String) (v : α)
    (h : k' ≠ k) : aget (aset d k v) k' = aget d k' := by
  induction d with
  | nil => simp [aset, aget, Ne.symm h]
  | cons p t ih =>
    by_cases hp : p.1 = k
    · simp [aset, aget, hp, Ne.symm h]
    · by_cases hpk : p.1 = k' <;> simp_all [aset, aget]

theorem rget_aset_self (d : Rec) (k v : String) : rget (aset d k v) k = v := by
  simp [rget, aget_aset_self]

theorem rget_aset_ne (d : Rec) (k k' v : String) (h : k' ≠ k) :
    rget (aset d k v) k' = rget d k' := by
  simp [rget, aget_aset_ne _ _ _ _ h]

theorem changed_indices_eq (ed rv : List String) :
    changed_indices_of ed rv =
      (List.range 18).filter (fun i => !(ed.getD i "" == rv.getD i "")) := by
  simp [changed_indices_of, mk_before, COLUMN_ORDER, rget, aget,
    List.range_succ, List.filter_cons, List.find?_cons]

theorem write_profile_missing (st : MState) (d : Rec) (h : nick_of d = "") :
    write_profile st d = ⟨st, d, ⟨.error, [], "Missing nickname"⟩⟩ := by
  unfold write_profile
  rw [if_pos h]

theorem write_profile_existing (st : MState) (d : Rec) (r : Nat)
    (ed : List String) (hn : nick_of d ≠ "")
    (hget : aget st.existing_profiles (pyLower (nick_of d)) = some (r, ed)) :
    write_profile st d =
      (let data := tagged st.tags_mapping d
       let rv := row_values_of data
       let ci := changed_indices_of ed rv
       if ci = [] then
         ⟨{ st with log_rows := st.log_rows ++
              [⟨nick_of d, "UNCHANGED", [], some (mk_before ed), data⟩] },
          data, ⟨.unchanged, [], ""⟩⟩
       else
         ⟨{ st with
              profiles_rows :=
                apply_link_formulas (sheetUpdateRow st.profiles_rows r rv) r data,
              log_rows := st.log_rows ++
                [⟨nick_of d, "UPDATED", ci.map (fun i => COLUMN_ORDER.getD i ""),
                  some (mk_before ed), data⟩],
              existing_profiles :=
                aset st.existing_profiles (pyLower (nick_of d)) (r, rv) },
          data, ⟨.updated, ci.map (fun i => COLUMN_ORDER.getD i ""), ""⟩⟩) := by
  unfold write_profile
  rw [if_neg hn]
  simp only [hget]

theorem write_profile_new (st : MState) (d : Rec) (hn : nick_of d ≠ "")
    (hget : aget st.existing_profiles (pyLower (nick_of d)) = none) :
    write_profile st d =
      (let data := tagged st.tags_mapping d
       let rv := row_values_of data
       let new_row := st.profiles_rows.length + 1
       ⟨{ st with
            profiles_rows :=
              apply_link_formulas (st.profiles_rows ++ [rv]) new_row data,
            existing_profiles :=
              aset st.existing_profiles (pyLower (nick_of d)) (new_row, rv),
            log_rows := st.log_rows ++ [⟨nick_of d, "NEW", COLUMN_ORDER, none, data⟩] },
        data, ⟨.new, COLUMN_ORDER, ""⟩⟩) := by
  unfold write_profile
  rw [if_neg hn]
  simp only [hget, List.length_append, List.length_cons, List.length_nil]

theorem write_profile_tags_mapping (st : MState) (d : Rec) :
    (write_profile st d).st.tags_mapping = st.tags_mapping := by
  by_cases h : nick_of d = ""
  · rw [write_profile_missing st d h]
  · cases hget : aget st.existing_profiles (pyLower (nick_of d)) with
    | none => rw [write_profile_new st d h hget]
    | some pr =>
      obtain ⟨r, ed⟩ := pr
      rw [write_profile_existing st d r ed h hget]
      simp only []
      split <;> rfl

/-- Pointwise form of "no field differs": `changed_indices_of` is empty iff
the stored values and the derived row agree (after nullish-to-empty
padding) at every declared column index. -/
theorem changed_indices_nil_iff (ed rv : List String) :
    changed_indices_of ed rv = [] ↔
      ∀ i < COLUMN_ORDER.length, ed.getD i "" = rv.getD i "" := by
  rw [changed_indices_eq, List.filter_eq_nil_iff]
  constructor
  · intro h i hi
    have := h i (by simpa [COLUMN_ORDER] using List.mem_range.2 (by simpa [COLUMN_ORDER] using hi))
    simpa using this
  · intro h a ha
    have := h a (by simpa [COLUMN_ORDER] using List.mem_range.1 ha)
    simp only [List.getD, List.get?_eq_getElem?] at this
    simp [this]

/-- After any non-error `write_profile`, the identity index holds an entry
for the record's lower-cased nickname whose stored values agree, at every
declared column index, with the row just derived from the record. -/
theorem index_after_write (st : MState) (d : Rec) (hn : nick_of d ≠ "") :
    ∃ r ed,
      aget (write_profile st d).st.existing_profiles (pyLower (nick_of d)) =
        some (r, ed) ∧
      ∀ i < COLUMN_ORDER.length,
        ed.getD i "" = (row_values_of (tagged st.tags_mapping d)).getD i "" := by
  cases hget : aget st.existing_profiles (pyLower (nick_of d)) with
  | none =>
    rw [write_profile_new st d hn hget]
    exact ⟨st.profiles_rows.length + 1, row_values_of (tagged st.tags_mapping d),
      by simp [aget_aset_self], fun i _ => rfl⟩
  | some pr =>
    obtain ⟨r, ed⟩ := pr
    rw [write_profile_existing st d r ed hn hget]
    simp only []
    split
    · next hnil =>
      exact ⟨r, ed, hget, (changed_indices_nil_iff _ _).1 hnil⟩
    · exact ⟨r, row_values_of (tagged st.tags_mapping d),
        by simp [aget_aset_self], fun i _ => rfl⟩

/-- Reconciling a second record of the same identity right after a first
one: the second call takes the existing-profile branch, and its
`changed_indices` are exactly the column indices where the two derived
rows differ. -/
theorem second_call_changed (st : MState) (d1 d2 : Rec)
    (hn1 : nick_of d1 ≠ "") (hn2 : nick_of d2 = nick_of d1) :
    ∃ r ed,
      aget (write_profile st d1).st.existing_profiles (pyLower (nick_of d2)) =
        some (r, ed) ∧
      changed_indices_of ed
          (row_values_of (tagged (write_profile st d1).st.tags_mapping d2)) =
        (List.range COLUMN_ORDER.length).filter
          (fun i =>
            !((row_values_of (tagged st.tags_mapping d1)).getD i "" ==
              (row_values_of (tagged st.tags_mapping d2)).getD i "")) := by
  obtain ⟨r, ed, hget, hagree⟩ := index_after_write st d1 hn1
  refine ⟨r, ed, by rw [hn2]; exact hget, ?_⟩
  rw [write_profile_tags_mapping, changed_indices_eq]
  refine List.filter_congr ?_
  intro i hi
  have hi' : i < COLUMN_ORDER.length := by
    simpa [COLUMN_ORDER] using List.mem_range.1 hi
  rw [hagree i hi']

theorem sheetSetCell_get? (s : Sheet) (n c : Nat) (v : String)
    (row : List String) (h : s.get? (n - 1) = some row) :
    (sheetSetCell s n c v).get? (n - 1) = some (row.set c v) := by
  unfold sheetSetCell
  rw [h]
  have hlt : n - 1 < s.length := by
    rw [List.get?_eq_getElem?] at h
    exact (List.getElem?_eq_some.1 h).1
  simp [List.getElem?_set_self, hlt]

theorem sheetSetCell_length (s : Sheet) (n c : Nat) (v : String) :
    (sheetSetCell s n c v).length = s.length := by
  unfold sheetSetCell
  cases s.get? (n - 1) <;> simp

/-- The formula pass over any column list keeps a row-level image: the
sheet's target row evolves exactly as the corresponding `List.set` chain
on the row itself. -/
theorem fold_setcell_row (d : Rec) (cols : List String) :
    ∀ (s : Sheet) (n : Nat) (row : List String), s.get? (n - 1) = some row →
    ((cols.foldl
        (fun sh col =>
          let value := rget d col
          if value = "" then sh
          else sheetSetCell sh n (COLUMN_TO_INDEX col) (link_formula col value))
        s).get? (n - 1)) =
      some (cols.foldl
        (fun rw col =>
          let value := rget d col
          if value = "" then rw
          else rw.set (COLUMN_TO_INDEX col) (link_formula col value))
        row) := by
  induction cols with
  | nil => intro s n row h; simpa using h
  | cons c cs ih =>
    intro s n row h
    simp only [List.foldl_cons]
    by_cases hv : rget d c = ""
    · simp only [hv, if_pos]
      exact ih s n row h
    · simp only [hv, if_neg]
      exact ih _ n _ (sheetSetCell_get? s n (COLUMN_TO_INDEX c) (link_formula c (rget d c)) row h)

theorem apply_link_formulas_length (s : Sheet) (n : Nat) (d : Rec) :
    (apply_link_formulas s n d).length = s.length := by
  simp only [apply_link_formulas, LINK_COLUMNS, List.foldl_cons, List.foldl_nil]
  split <;> split <;> split <;> simp [sheetSetCell_length]

/-- Row-level effect of the formula pass on a freshly written row: the
visible row is exactly `row_as_persisted`. -/
theorem row_fold_eq_persisted (d : Rec) :
    (LINK_COLUMNS.foldl
        (fun rw col =>
          let value := rget d col
          if value = "" then rw
          else rw.set (COLUMN_TO_INDEX col) (link_formula col value))
        (row_values_of d)) = row_as_persisted d := by
  by_cases h1 : rget d "IMAGE" = "" <;>
    by_cases h2 : rget d "LAST POST" = "" <;>
      by_cases h3 : rget d "PROFILE LINK" = "" <;>
        simp [LINK_COLUMNS, row_values_of, row_as_persisted, COLUMN_ORDER,
          COLUMN_TO_INDEX, h1, h2, h3, cell_value, List.findIdx_cons]

/-- After `write_profile` has written `row_values_of d` at 1-based row `n`
and run the formula pass, the persisted row reads as `row_as_persisted d`. -/
theorem apply_link_formulas_row (s : Sheet) (n : Nat) (d : Rec)
    (h : s.get? (n - 1) = some (row_values_of d)) :
    (apply_link_formulas s n d).get? (n - 1) = some (row_as_persisted d) := by
  rw [apply_link_formulas]
  rw [fold_setcell_row d LINK_COLUMNS s n (row_values_of d) h]
  rw [row_fold_eq_persisted]

theorem wp_log_append (st : MState) (d : Rec) (hn : nick_of d ≠ "") :
    ∃ e, (write_profile st d).st.log_rows = st.log_rows ++ [e] := by
  cases hget : aget st.existing_profiles (pyLower (nick_of d)) with
  | none => rw [write_profile_new st d hn hget]; exact ⟨_, rfl⟩
  | some pr =>
    obtain ⟨r, ed⟩ := pr
    rw [write_profile_existing st d r ed hn hget]
    simp only []
    split
    · exact ⟨_, rfl⟩
    · exact ⟨_, rfl⟩

theorem wp_log_unchanged (st : MState) (d : Rec) (hn : nick_of d ≠ "")
    (hu : (write_profile st d).res.status = WStatus.unchanged) :
    ∃ e, (write_profile st d).st.log_rows = st.log_rows ++ [e] ∧
      e.change_type = "UNCHANGED" ∧ e.changed_fields = [] ∧
      e.after = tagged st.tags_mapping d := by
  cases hget : aget st.existing_profiles (pyLower (nick_of d)) with
  | none =>
    rw [write_profile_new st d hn hget] at hu
    exact absurd hu (by simp)
  | some pr =>
    obtain ⟨r, ed⟩ := pr
    by_cases hnil :
        changed_indices_of ed (row_values_of (tagged st.tags_mapping d)) = []
    · rw [write_profile_existing st d r ed hn hget]
      simp only [hnil, if_pos]
      exact ⟨_, rfl, rfl, rfl, rfl⟩
    · rw [write_profile_existing st d r ed hn hget] at hu
      simp only [hnil, if_neg, if_false] at hu
      exact absurd hu (by simp)

theorem wp_data_after (st : MState) (d : Rec) (hn : nick_of d ≠ "") :
    (write_profile st d).data = tagged st.tags_mapping d := by
  cases hget : aget st.existing_profiles (pyLower (nick_of d)) with
  | none => rw [write_profile_new st d hn hget]
  | some pr =>
    obtain ⟨r, ed⟩ := pr
    rw [write_profile_existing st d r ed hn hget]
    simp only []
    split <;> rfl

/-! ## Claim theorems -/

/-- C5: For every record, reconciliation returns the missing-identity
failure (status `error`, message `"Missing nickname"`) iff the normalized
(stripped) identity field is empty — never for a non-empty identity — and
in that case the manager state is returned untouched: no write plan, no
remote write, no log entry, no index change. -/
theorem C5_missing_identity_iff (st : MState) (d : Rec) :
    ((write_profile st d).res.status = WStatus.error ↔ nick_of d = "") ∧
    (nick_of d = "" →
      write_profile st d = ⟨st, d, ⟨WStatus.error, [], "Missing nickname"⟩⟩) := by
  refine ⟨?_, fun h => write_profile_missing st d h⟩
  by_cases h : nick_of d = ""
  · simp [write_profile_missing st d h, h]
  · simp only [h, iff_false]
    cases hget : aget st.existing_profiles (pyLower (nick_of d)) with
    | none => rw [write_profile_new st d h hget]; simp
    | some pr =>
      obtain ⟨r, ed⟩ := pr
      rw [write_profile_existing st d r ed h hget]
      simp only []
      split <;> simp

theorem C5_missing_identity_iff_witness :
    ((write_profile ⟨[], [], [], []⟩ [("NICK NAME", " ")]).res.status =
        WStatus.error ↔ nick_of [("NICK NAME", " ")] = "") ∧
    write_profile ⟨[], [], [], []⟩ [("NICK NAME", " ")] =
      ⟨⟨[], [], [], []⟩, [("NICK NAME", " ")],
        ⟨WStatus.error, [], "Missing nickname"⟩⟩ :=
  ⟨(C5_missing_identity_iff ⟨[], [], [], []⟩ [("NICK NAME", " ")]).1,
   (C5_missing_identity_iff ⟨[], [], [], []⟩ [("NICK NAME", " ")]).2 (by decide)⟩

/-- C3: For a record whose identity is present in the snapshot index, the
outcome is `Unchanged` iff no field differs between the stored values and
the new normalized values, compared at every declared column index with
Python's `or ""` nullish-to-empty coercion on both sides; and on an
`Unchanged` outcome the Profiles table is not written. -/
theorem C3_unchanged_iff_no_diff (st : MState) (d : Rec) (r : Nat)
    (ed : List String) (hn : nick_of d ≠ "")
    (hget : aget st.existing_profiles (pyLower (nick_of d)) = some (r, ed)) :
    ((write_profile st d).res.status = WStatus.unchanged ↔
      ∀ i < COLUMN_ORDER.length,
        py_or (ed.getD i "") "" =
          py_or ((row_values_of (tagged st.tags_mapping d)).getD i "") "") ∧
    ((write_profile st d).res.status = WStatus.unchanged →
      (write_profile st d).st.profiles_rows = st.profiles_rows) := by
  rw [write_profile_existing st d r ed hn hget]
  simp only [py_or_empty]
  split
  · next hnil =>
    exact ⟨iff_of_true rfl ((changed_indices_nil_iff _ _).1 hnil), fun _ => rfl⟩
  · next hne =>
    refine ⟨iff_of_false (by simp) ?_, fun h => absurd h (by simp)⟩
    exact fun hall => hne ((changed_indices_nil_iff _ _).2 hall)

theorem C3_unchanged_iff_no_diff_witness :
    ((write_profile stBob dBob).res.status = WStatus.unchanged ↔
      ∀ i < COLUMN_ORDER.length,
        py_or (edBob.getD i "") "" =
          py_or ((row_values_of (tagged stBob.tags_mapping dBob)).getD i "") "") ∧
    ((write_profile stBob dBob).res.status = WStatus.unchanged →
      (write_profile stBob dBob).st.profiles_rows = stBob.profiles_rows) :=
  C3_unchanged_iff_no_diff stBob dBob 1 edBob (by decide) (by decide)

/-- C8 (amended): a record with a non-empty identity appends exactly one
ChangeLogEntry whatever its outcome (New, Updated, or Unchanged), but a
record failing with the missing-identity error appends none: `write_profile`
returns before reaching `log_change` on that path. -/
theorem C8_one_log_entry (st : MState) (d : Rec) :
    (nick_of d ≠ "" →
      ∃ e, (write_profile st d).st.log_rows = st.log_rows ++ [e]) ∧
    (nick_of d = "" → (write_profile st d).st.log_rows = st.log_rows) := by
  refine ⟨fun hn => wp_log_append st d hn, fun h => ?_⟩
  rw [write_profile_missing st d h]

theorem C8_one_log_entry_witness :
    (∃ e, (write_profile ⟨[], [], [], []⟩
        [("NICK NAME", "sam99"), ("CITY", "Lahore")]).st.log_rows = [] ++ [e]) ∧
    (write_profile ⟨[], [], [], []⟩ [("NICK NAME", "")]).st.log_rows = [] :=
  ⟨(C8_one_log_entry ⟨[], [], [], []⟩ [("NICK NAME", "sam99"), ("CITY", "Lahore")]).1
      (by decide),
   (C8_one_log_entry ⟨[], [], [], []⟩ [("NICK NAME", "")]).2 (by decide)⟩

/-- C8 counterexample: a processed record whose outcome is
`Failed("missing identity")` appends no ChangeLogEntry at all — the claim
"exactly one ChangeLogEntry is appended … whatever the reconciliation
outcome — New, Updated, Unchanged, or Failed" is false on the Failed
outcome. -/
theorem C8_cex_failed_not_logged :
    (write_profile ⟨[], [], [], []⟩ [("NICK NAME", "")]).res.status =
        WStatus.error ∧
    (write_profile ⟨[], [], [], []⟩ [("NICK NAME", "")]).st.log_rows = [] := by
  decide

/-- C10 (amended): for every record with a *non-empty* identity, the
record's `TAGS` field is overwritten in place with the tags-mapping value
for its lower-cased identity (empty string when absent): the mutated record
handed back (and logged as the `after` payload) is exactly the input with
`TAGS` reassigned, so the caller-supplied `TAGS` value is discarded and no
other field is touched. -/
theorem C10_tags_overwritten (st : MState) (d : Rec) (hn : nick_of d ≠ "") :
    (write_profile st d).data =
      aset d "TAGS" ((aget st.tags_mapping (pyLower (nick_of d))).getD "") ∧
    rget (write_profile st d).data "TAGS" =
      (aget st.tags_mapping (pyLower (nick_of d))).getD "" ∧
    (∀ k, k ≠ "TAGS" → rget (write_profile st d).data k = rget d k) := by
  have h := wp_data_after st d hn
  refine ⟨h, ?_, fun k hk => ?_⟩
  · rw [h]; exact rget_aset_self _ _ _
  · rw [h]; exact rget_aset_ne _ _ _ _ hk

theorem C10_tags_overwritten_witness :
    (write_profile ⟨[], [("bob", "VIP")], [], []⟩
        [("NICK NAME", "Bob"), ("TAGS", "stale")]).data =
      aset [("NICK NAME", "Bob"), ("TAGS", "stale")] "TAGS"
        ((aget [("bob", "VIP")] (pyLower (nick_of
          [("NICK NAME", "Bob"), ("TAGS", "stale")]))).getD "") ∧
    rget (write_profile ⟨[], [("bob", "VIP")], [], []⟩
        [("NICK NAME", "Bob"), ("TAGS", "stale")]).data "TAGS" =
      (aget [("bob", "VIP")] (pyLower (nick_of
        [("NICK NAME", "Bob"), ("TAGS", "stale")]))).getD "" ∧
    (∀ k, k ≠ "TAGS" →
      rget (write_profile ⟨[], [("bob", "VIP")], [], []⟩
          [("NICK NAME", "Bob"), ("TAGS", "stale")]).data k =
        rget [("NICK NAME", "Bob"), ("TAGS", "stale")] k) :=
  C10_tags_overwritten ⟨[], [("bob", "VIP")], [], []⟩
    [("NICK NAME", "Bob"), ("TAGS", "stale")] (by decide)

/-- C10 counterexample: a record with an empty identity is *not* mutated —
`write_profile` returns before the `data['TAGS'] = …` line, so the
caller's `TAGS` value survives; the claim's "for every record passed to
write_profile" is too broad. -/
theorem C10_cex_empty_identity_not_mutated :
    (write_profile ⟨[], [("x", "VIP")], [], []⟩
        [("NICK NAME", ""), ("TAGS", "keep")]).data =
      [("NICK NAME", ""), ("TAGS", "keep")] := by
  decide

/-- C4 (amended): between two reconciliations of the same identity, the
second is `Updated` exactly when the *derived* rows differ, and
`changed_fields` is exactly the (ordered) list of column names whose
derived cell values differ — every such field reported, no other field
reported.  (At the raw-record level the original claim fails: mutating a
field whose derived value is insensitive to the raw value — IMAGE, TAGS,
or a link column's URL — is not reported; see the counterexample.) -/
theorem C4_detected_changes (st : MState) (d1 d2 : Rec)
    (hn1 : nick_of d1 ≠ "") (hn2 : nick_of d2 = nick_of d1)
    (hdiff :
      (List.range COLUMN_ORDER.length).filter
        (fun i =>
          !((row_values_of (tagged st.tags_mapping d1)).getD i "" ==
            (row_values_of (tagged st.tags_mapping d2)).getD i "")) ≠ []) :
    (write_profile (write_profile st d1).st d2).res.status = WStatus.updated ∧
    (write_profile (write_profile st d1).st d2).res.changed_fields =
      ((List.range COLUMN_ORDER.length).filter
        (fun i =>
          !((row_values_of (tagged st.tags_mapping d1)).getD i "" ==
            (row_values_of (tagged st.tags_mapping d2)).getD i ""))).map
        (fun i => COLUMN_ORDER.getD i "") := by
  obtain ⟨r, ed, hget, hchg⟩ := second_call_changed st d1 d2 hn1 hn2
  have hn2' : nick_of d2 ≠ "" := by rw [hn2]; exact hn1
  rw [write_profile_existing _ d2 r ed hn2' hget]
  simp only []
  rw [hchg, if_neg hdiff]
  exact ⟨rfl, rfl⟩

theorem C4_detected_changes_witness :
    (write_profile (write_profile st0 dBob).st dBob2).res.status =
        WStatus.updated ∧
    (write_profile (write_profile st0 dBob).st dBob2).res.changed_fields =
      ((List.range COLUMN_ORDER.length).filter
        (fun i =>
          !((row_values_of (tagged st0.tags_mapping dBob)).getD i "" ==
            (row_values_of (tagged st0.tags_mapping dBob2)).getD i ""))).map
        (fun i => COLUMN_ORDER.getD i "") :=
  C4_detected_changes st0 dBob dBob2 (by decide) (by decide) (by decide)

/-- C4 counterexample: mutating exactly the field subset `{IMAGE}` between
two reconciliations of the same identity yields `Unchanged` with no
reported fields — not `Updated({IMAGE})` as the claim requires — because
`write_profile` derives an empty cell for IMAGE whatever its raw value. -/
theorem C4_cex_image_mutation_unreported :
    (∀ k ∈ COLUMN_ORDER, k ≠ "IMAGE" → rget dImgA k = rget dImgB k) ∧
    rget dImgA "IMAGE" ≠ rget dImgB "IMAGE" ∧
    (write_profile (write_profile st0 dImgA).st dImgB).res.status =
        WStatus.unchanged ∧
    (write_profile (write_profile st0 dImgA).st dImgB).res.changed_fields = [] := by
  decide

/-- C6: a record reconciled once (as New or as Unchanged) and immediately
re-reconciled with zero field drift classifies as `Unchanged`, never
`Updated`; both reconciliations append their own ChangeLogEntry, and every
`Unchanged` reconciliation's entry carries empty `changed_fields`. -/
theorem C6_idempotent_unchanged (st : MState) (d : Rec) (hn : nick_of d ≠ "")
    (_hfirst : (write_profile st d).res.status = WStatus.new ∨
      (write_profile st d).res.status = WStatus.unchanged) :
    (write_profile (write_profile st d).st d).res.status = WStatus.unchanged ∧
    (write_profile (write_profile st d).st d).res.changed_fields = [] ∧
    (∃ e1, (write_profile st d).st.log_rows = st.log_rows ++ [e1]) ∧
    (∃ e2, (write_profile (write_profile st d).st d).st.log_rows =
        (write_profile st d).st.log_rows ++ [e2] ∧
        e2.change_type = "UNCHANGED" ∧ e2.changed_fields = []) ∧
    ((write_profile st d).res.status = WStatus.unchanged →
      ∃ e1, (write_profile st d).st.log_rows = st.log_rows ++ [e1] ∧
        e1.change_type = "UNCHANGED" ∧ e1.changed_fields = []) := by
  obtain ⟨r, ed, hget, hchg⟩ := second_call_changed st d d hn rfl
  have hnil : changed_indices_of ed
      (row_values_of (tagged (write_profile st d).st.tags_mapping d)) = [] := by
    rw [hchg]
    simp [List.filter_eq_nil_iff]
  refine ⟨?_, ?_, wp_log_append st d hn, ?_, ?_⟩
  · rw [write_profile_existing _ d r ed hn hget]
    simp only [hnil, if_pos]
  · rw [write_profile_existing _ d r ed hn hget]
    simp only [hnil, if_pos]
  · rw [write_profile_existing _ d r ed hn hget]
    simp only [hnil, if_pos]
    exact ⟨_, rfl, rfl, rfl⟩
  · intro hu
    obtain ⟨e, he, ht, hf, _⟩ := wp_log_unchanged st d hn hu
    exact ⟨e, he, ht, hf⟩

theorem C6_idempotent_unchanged_witness :
    (write_profile (write_profile st0 dBob).st dBob).res.status =
        WStatus.unchanged ∧
    (write_profile (write_profile st0 dBob).st dBob).res.changed_fields = [] ∧
    (∃ e1, (write_profile st0 dBob).st.log_rows = st0.log_rows ++ [e1]) ∧
    (∃ e2, (write_profile (write_profile st0 dBob).st dBob).st.log_rows =
        (write_profile st0 dBob).st.log_rows ++ [e2] ∧
        e2.change_type = "UNCHANGED" ∧ e2.changed_fields = []) ∧
    ((write_profile st0 dBob).res.status = WStatus.unchanged →
      ∃ e1, (write_profile st0 dBob).st.log_rows = st0.log_rows ++ [e1] ∧
        e1.change_type = "UNCHANGED" ∧ e1.changed_fields = []) :=
  C6_idempotent_unchanged st0 dBob (by decide) (Or.inl (by decide))

/-- C7 (amended): reconciling `[A(v1), A(v2)]` for an identity absent from
the snapshot index, *provided some derived cell value differs between v1
and v2*, classifies them as `New` then `Updated`, leaves the snapshot
index holding v2's derived row at the appended location, leaves the
persisted row reading as v2 (derived values plus v2's link formulas), and
appends the two ChangeLogEntry rows in processing order — v1's intermediate
state staying logged.  (Without a derived-value difference the second pass
is `Unchanged` and the persisted link-formula cells keep v1's URLs; see the
counterexample.) -/
theorem C7_last_write_wins (st : MState) (d1 d2 : Rec)
    (hn1 : nick_of d1 ≠ "") (hn2 : nick_of d2 = nick_of d1)
    (habs : aget st.existing_profiles (pyLower (nick_of d1)) = none)
    (hdiff :
      changed_indices_of (row_values_of (tagged st.tags_mapping d1))
        (row_values_of (tagged st.tags_mapping d2)) ≠ []) :
    (write_profile st d1).res.status = WStatus.new ∧
    (write_profile (write_profile st d1).st d2).res.status = WStatus.updated ∧
    aget (write_profile (write_profile st d1).st d2).st.existing_profiles
        (pyLower (nick_of d1)) =
      some (st.profiles_rows.length + 1,
        row_values_of (tagged st.tags_mapping d2)) ∧
    (write_profile (write_profile st d1).st d2).st.profiles_rows.get?
        (st.profiles_rows.length) =
      some (row_as_persisted (tagged st.tags_mapping d2)) ∧
    (write_profile (write_profile st d1).st d2).st.log_rows =
      st.log_rows ++
        [⟨nick_of d1, "NEW", COLUMN_ORDER, none, tagged st.tags_mapping d1⟩,
         ⟨nick_of d1, "UPDATED",
           (changed_indices_of (row_values_of (tagged st.tags_mapping d1))
             (row_values_of (tagged st.tags_mapping d2))).map
             (fun i => COLUMN_ORDER.getD i ""),
           some (mk_before (row_values_of (tagged st.tags_mapping d1))),
           tagged st.tags_mapping d2⟩] := by
  have hn2' : nick_of d2 ≠ "" := by rw [hn2]; exact hn1
  rw [write_profile_new st d1 hn1 habs]
  simp only []
  have hget2 :
      aget (aset st.existing_profiles (pyLower (nick_of d1))
          (st.profiles_rows.length + 1, row_values_of (tagged st.tags_mapping d1)))
        (pyLower (nick_of d2)) =
      some (st.profiles_rows.length + 1, row_values_of (tagged st.tags_mapping d1)) := by
    rw [hn2]; exact aget_aset_self _ _ _
  rw [write_profile_existing _ d2 (st.profiles_rows.length + 1)
    (row_values_of (tagged st.tags_mapping d1)) hn2' hget2]
  rw [if_neg hdiff]
  refine ⟨by trivial, by trivial, ?_, ?_, ?_⟩
  · rw [hn2, aget_aset_self]
  · have hlen :
        (apply_link_formulas (st.profiles_rows ++ [row_values_of (tagged st.tags_mapping d1)])
          (st.profiles_rows.length + 1) (tagged st.tags_mapping d1)).length =
        st.profiles_rows.length + 1 := by
      rw [apply_link_formulas_length]; simp
    apply apply_link_formulas_row
    show (sheetUpdateRow _ (st.profiles_rows.length + 1) _).get?
        (st.profiles_rows.length + 1 - 1) = _
    unfold sheetUpdateRow
    simp only [Nat.add_sub_cancel]
    rw [List.get?_eq_getElem?]
    rw [List.getElem?_set_self (by rw [hlen]; omega)]
  · simp [hn2]

theorem C7_last_write_wins_witness :
    (write_profile st0 dBob).res.status = WStatus.new ∧
    (write_profile (write_profile st0 dBob).st dBob2).res.status =
        WStatus.updated ∧
    aget (write_profile (write_profile st0 dBob).st dBob2).st.existing_profiles
        (pyLower (nick_of dBob)) =
      some (st0.profiles_rows.length + 1,
        row_values_of (tagged st0.tags_mapping dBob2)) ∧
    (write_profile (write_profile st0 dBob).st dBob2).st.profiles_rows.get?
        (st0.profiles_rows.length) =
      some (row_as_persisted (tagged st0.tags_mapping dBob2)) ∧
    (write_profile (write_profile st0 dBob).st dBob2).st.log_rows =
      st0.log_rows ++
        [⟨nick_of dBob, "NEW", COLUMN_ORDER, none, tagged st0.tags_mapping dBob⟩,
         ⟨nick_of dBob, "UPDATED",
           (changed_indices_of (row_values_of (tagged st0.tags_mapping dBob))
             (row_values_of (tagged st0.tags_mapping dBob2))).map
             (fun i => COLUMN_ORDER.getD i ""),
           some (mk_before (row_values_of (tagged st0.tags_mapping dBob))),
           tagged st0.tags_mapping dBob2⟩] :=
  C7_last_write_wins st0 dBob dBob2 (by decide) (by decide) (by decide) (by decide)

/-- C7 counterexample: reconciling `[A(v1), A(v2)]` where v1 and v2 differ
only in the profile-link URL (both non-empty) leaves the persisted row's
link cell holding *v1's* formula, not v2's: the derived rows coincide, the
second reconciliation is `Unchanged`, no write happens, and the persisted
row does not hold v2.  The claim's unconditional "persisted row holding
v2" is therefore false. -/
theorem C7_cex_link_formula_stale :
    rget dLinkA "PROFILE LINK" ≠ rget dLinkB "PROFILE LINK" ∧
    (write_profile (write_profile st0 dLinkA).st dLinkB).res.status =
        WStatus.unchanged ∧
    ((write_profile (write_profile st0 dLinkA).st dLinkB).st.profiles_rows.getD
        0 []).getD 14 "" =
      link_formula "PROFILE LINK" (rget dLinkA "PROFILE LINK") ∧
    link_formula "PROFILE LINK" (rget dLinkA "PROFILE LINK") ≠
      link_formula "PROFILE LINK" (rget dLinkB "PROFILE LINK") := by
  decide

/-- C2 (amended, refinement): `safe_update` realises this policy exactly —
every failure class is retried while attempts remain (the operation
returns the result of the first successful attempt among the three);
throttling/quota failures sleep a linear backoff of (attempt index + 1)×5
seconds before the retry, failures of any other class retry immediately
with no backoff; a success is followed by the fixed pacing delay; only
after the third attempt fails (immediately, for a non-quota failure on the
last attempt) is the operation given up and reported as a non-fatal
per-record failure (`None`). -/
theorem C2_retry_policy (f : Nat → ROutcome) (delay : ℚ) :
    safe_update f delay = (first_ok f, backoffs f delay) := by
  rcases h0 : f 0 with _ | m0 <;> rcases h1 : f 1 with _ | m1 <;>
    rcases h2 : f 2 with _ | m2
  all_goals
    simp only [safe_update, safe_update_go, first_ok, attempts_run, backoffs,
      h0, h1, h2]
  all_goals try by_cases q0 : is_quota_msg m0
  all_goals try by_cases q1 : is_quota_msg m1
  all_goals try by_cases q2 : is_quota_msg m2
  all_goals simp_all [List.range_succ]

/-- C2 counterexample: a failure that is *not* a throttling/quota signal is
retried rather than aborting the operation — with a non-quota error on the
first attempt and a success on the second, `safe_update` returns the
second attempt's result (after no backoff, then the pacing delay), while
the claim requires the operation to abort immediately with no retry. -/
theorem C2_cex_nonquota_retried :
    is_quota_msg "boom" = false ∧
    safe_update (fun i => if i = 0 then ROutcome.err "boom" else ROutcome.ok) 1 =
      (some 1, [1]) := by
  decide

/-- C1 (amended): a failure of the Profiles read inside
`load_existing_profiles` is *swallowed* — provided nothing outside the
swallowing loaders raised, `setup` still returns `True`, so the run
proceeds, with an *empty* baseline index (every identity will then be
reconciled as New).  Only an exception reaching `setup`'s own handler
(`rm.fatal`) aborts the run. -/
theorem C1_load_failure_swallowed (rm : Remote) (st : MState) (e : String)
    (hf : rm.fatal = false) (hp : rm.profiles_fetch = Except.error e) :
    (setup rm st).1 = true ∧ (setup rm st).2.existing_profiles = [] := by
  unfold setup
  rw [hf]
  simp [load_existing_profiles, hp]

theorem C1_load_failure_swallowed_witness :
    (setup rmErr stSheetBob).1 = true ∧
    (setup rmErr stSheetBob).2.existing_profiles = [] :=
  C1_load_failure_swallowed rmErr stSheetBob "remote unreachable"
    (by decide) (by rfl)

/-- C1 counterexample: with the persisted table holding bob's row, a run
whose snapshot load fails does *not* abort — `setup` returns `True` and
the next record is reconciled (as `New`, duplicating the identity),
whereas the same run with a healthy load classifies it `Unchanged`.  The
claim that a failed load is fatal and that reconciliation never proceeds
without a loaded baseline is false. -/
theorem C1_cex_run_proceeds_after_load_failure :
    (setup rmErr stSheetBob).1 = true ∧
    (write_profile (setup rmErr stSheetBob).2 dBob).res.status = WStatus.new ∧
    (write_profile (setup rmOk stSheetBob).2 dBob).res.status =
      WStatus.unchanged := by
  decide

/-- C9 (amended): on any non-empty input in which nothing is recognized —
the normalized text is none of the special phrases and neither `ago`
pattern matches anywhere in it — the function raises no error and returns
the *normalized* text: the input lower-cased, stripped, and with the unit
abbreviations expanded.  (The raw input itself is not returned unchanged;
see the counterexample.) -/
theorem C9_unrecognized_pass_through (fmt : Int → String) (now : Int)
    (s : String) (hne : s ≠ "")
    (h1 : normalize_relative s ≠ "just now")
    (h2 : normalize_relative s ≠ "now")
    (h3 : normalize_relative s ≠ "yesterday")
    (h4 : searchA false (normalize_relative s).toList = none)
    (h5 : searchN (normalize_relative s).toList = none) :
    convert_relative_date_to_absolute fmt now s = normalize_relative s := by
  unfold convert_relative_date_to_absolute
  rw [if_neg hne]
  have h4' : searchA false (normalize_relative s).data = none := h4
  have h5' : searchN (normalize_relative s).data = none := h5
  simp [h1, h2, h3, h4', h5']

theorem C9_unrecognized_pass_through_witness :
    convert_relative_date_to_absolute (fun _ => "") 0 "Hello" =
      normalize_relative "Hello" :=
  C9_unrecognized_pass_through (fun _ => "") 0 "Hello" (by decide) (by decide)
    (by decide) (by decide) (by decide) (by decide)

/-- C9 counterexample: `"Hello"` contains no recognizable relative time
expression (not a special phrase, no `ago` pattern), yet the function does
*not* return the input text unchanged — it returns the lower-cased text
`"hello"`, because normalization happens before the pass-through. -/
theorem C9_cex_text_altered :
    normalize_relative "Hello" ≠ "just now" ∧
    normalize_relative "Hello" ≠ "now" ∧
    normalize_relative "Hello" ≠ "yesterday" ∧
    searchA false (normalize_relative "Hello").toList = none ∧
    searchN (normalize_relative "Hello").toList = none ∧
    convert_relative_date_to_absolute (fun _ => "") 0 "Hello" = "hello" ∧
    ("hello" : String) ≠ "Hello" := by
  decide

/-! ## Sanity checks: concrete evaluations of the embedding -/

theorem sanity_two_months_ago :
    convert_relative_date_to_absolute (fun t => toString t) 100 "2 months ago" =
      toString (100 - 2 * 2592000 : Int) := by decide

theorem sanity_an_hour_ago :
    convert_relative_date_to_absolute (fun t => toString t) 100 "an hour ago" =
      toString (100 - 3600 : Int) := by decide

theorem sanity_abbrev_without_ago :
    convert_relative_date_to_absolute (fun _ => "D") 0 "5 mins" = "5 minutes" := by
  decide

theorem sanity_embedded_expression :
    convert_relative_date_to_absolute (fun t => toString t) 100
      "posted 3 hrs ago by x" = toString (100 - 3 * 3600 : Int) := by decide

theorem sanity_just_now_mixed_case :
    convert_relative_date_to_absolute (fun t => toString t) 100 " Just Now " =
      toString (100 : Int) := by decide

theorem sanity_yesterday :
    convert_relative_date_to_absolute (fun t => toString t) 100 "yesterday" =
      toString (100 - 86400 : Int) := by decide

theorem sanity_fresh_record_is_new :
    (write_profile st0 [("NICK NAME", "sam99"), ("CITY", "Lahore"), ("POSTS", "3")]).res.status =
      WStatus.new := by decide

theorem sanity_city_change_detected :
    (write_profile (write_profile st0 dBob).st dBob2).res.changed_fields =
      ["CITY"] := by decide

theorem sanity_clean_data_sentinel : clean_data " Not set " = "" := by decide

theorem sanity_quota_detection :
    is_quota_msg "Quota exceeded: 429" = true := by decide

end DD
